import Mathlib

/-!
# Verification of the sequential bot executor (`bot/sequential.go`)

Shallow embedding of `SequentialBot` from `src/bot/sequential.go`.
The executor owns one protocol client, one storage and a configured host,
iterates a scenario's ordered operations, dispatches by operation kind,
halts on the first failing step and disconnects on exit.

The helper functions used by the executor (`buildArgs`, `sendRequest`,
`sendNotify`, `validateExpectations`, `storeData`, `NewPClient`,
`ReceivePush`) live in other files of the repository; they are abstracted
here as an `Env` of effect functions (see its doc comment), so every
theorem below quantifies over all of their behaviours.

Side effects that the claims talk about (network calls, disconnections,
store writes) are made observable as an explicit event trace.
-/

namespace PitayaBot

/-- Dynamic values (the Go empty interface): arguments, responses and storage
entries.  Only the string / non-string distinction is inspected by
`sequential.go` (the `val.(string)` type assertion in `runFunction`). -/
inductive Value where
  | str (s : String)
  | num (n : Int)
  | boolean (b : Bool)
  deriving DecidableEq, Repr

/-- Whether a dynamic value is a Go string (the `val.(string)` assertion). -/
def Value.isStr : Value → Bool
  | .str _ => true
  | _ => false

/-- A resolved argument map (a Go string-keyed map of dynamic values). -/
abbrev Args := List (String × Value)

/-- Raw (unresolved) argument map of an operation. -/
abbrev RawArgs := List (String × Value)

/-- Embeds the Go map lookup `args["host"]`. -/
def lookupArg : Args → String → Option Value
  | [], _ => none
  | (k2, v) :: rest, k => if k2 == k then some v else lookupArg rest k

/-- Modelled from the spec: `models.Expect`, the declarative expectation of
an operation; `sequential.go` only passes it through to the validator and
into `NewExpectError`. -/
abbrev Expect := List (String × Value)

/-- Modelled from the spec: `models.StoreSpec`, the mapping of storage keys
to response paths; `sequential.go` only passes it to `storeData`. -/
abbrev StoreSpec := List (String × Value)

/-- Modelled from the spec: the per-run Storage, a single mutable
string-keyed namespace.  `sequential.go` treats it as opaque. -/
abbrev Storage := List (String × Value)

/-- Errors returned by handlers.  `Err.expectErr` is `NewExpectError(err,
rawResp, op.Expect)` from `runRequest`: it carries the inner validation
error, the raw response bytes and the failed expectation.  Every other
error is carried as a message. -/
inductive Err where
  | msg (s : String)
  | expectErr (inner : Err) (raw : String) (expectation : Expect)
  deriving DecidableEq, Repr

/-- Embeds `models.Operation` (modelled from the spec for the field list): kind
string (`Type` in Go, renamed since `Type` is reserved in Lean), route
(`URI`), raw args, expectation, store spec and listen timeout. -/
structure Operation where
  opType : String
  uri : String
  args : RawArgs
  expect : Expect
  store : StoreSpec
  timeout : Nat
  deriving DecidableEq, Repr

/-- The protocol client held by the bot (`*PClient`).  Modelled from the
spec: `NewPClient` yields a connected client and `Disconnect` transitions
it to disconnected; `id` distinguishes successively created clients. -/
structure PClient where
  id : Nat
  connected : Bool
  deriving DecidableEq, Repr

/-- The mutable fields of `SequentialBot` that `sequential.go` touches:
the (nullable) client pointer, the storage and the configured host.
`config`, `logger`, `id`, `spec` and `metricsReporter` are read-only
context (the scenario is passed to `Run` explicitly below). -/
structure BotState where
  client : Option PClient
  storage : Storage
  host : String
  deriving DecidableEq, Repr

/-- Observable side effects of a step, in order of occurrence:
`clientDisconnect` is a `client.Disconnect()` call; the others are the
network calls (client creation attempt, request, notify, push wait) and
the store phase (`storeData` call). -/
inductive Event where
  | clientDisconnect
  | newClient (host : String)
  | requestSent (route : String)
  | notifySent (route : String)
  | pushReceived (route : String)
  | stored
  deriving DecidableEq, Repr

/-- Outcome of a handler or of `Run`: normal success, a returned error, or
a `logger.Fatal` (logrus `Fatal` calls `os.Exit`, so it neither returns
nor runs deferred functions). -/
inductive RunResult where
  | ok
  | err (e : Err)
  | fatal (s : String)
  deriving DecidableEq, Repr

/-- Result of running a handler: the updated bot state, the trace of
observable events the handler produced, and its outcome. -/
structure StepOut where
  state : BotState
  trace : List Event
  res : RunResult
  deriving DecidableEq, Repr

/-- Modelled from the spec: the collaborators of `sequential.go` that live
in other files of the repository — the argument resolver (`buildArgs`),
the network operations of the protocol client (`NewPClient`,
`sendRequest`, `sendNotify`, `ReceivePush`) and the expectation validator
and response store writer (`validateExpectations`, `storeData`).  Per the
spec, the resolver and validator only read Storage and the writer returns
the updated Storage, which the types here enforce; everything else about
their behaviour is left arbitrary, so theorems quantifying over `Env`
hold for every behaviour of those collaborators.  `tls` is
`config.GetBool("server.tls")`. -/
structure Env where
  tls : Bool
  buildArgs : RawArgs → Storage → Except Err Args
  sendRequest : Args → String → Except Err (Value × String)
  sendNotify : Args → String → Option Err
  validateExpectations : Expect → Value → Storage → Option Err
  storeData : StoreSpec → Storage → Value → Except Err Storage
  newPClient : String → Bool → Except Err Nat
  receivePush : String → Nat → Except Err Value

/-- Helper: Go discards the `error` result of `b.Connect(host)` in `runFunction`
and of `b.Connect()` in `Reconnect`: a returned error becomes normal
continuation, while a `Fatal` still terminates the process. -/
def discardErr : RunResult → RunResult
  | .fatal s => .fatal s
  | _ => .ok

/-- Embeds `SequentialBot.Disconnect`: calls `b.client.Disconnect()`.  Modelled
from the spec for the client side: disconnect transitions the client to
disconnected (a no-op when there is no live client).  Returns the new
state and the emitted event. -/
def Disconnect (b : BotState) : BotState × List Event :=
  ({ b with client := b.client.map (fun c => { c with connected := false }) },
   [Event.clientDisconnect])

/-- Embeds `SequentialBot.Connect(hosts ...string)`: first overwrites `b.host`
with `hosts[0]` when a host is given, then fatally aborts if the current
client is non-nil and connected, then builds a new client against
`b.host` (the error, if any, is returned with the host already updated),
and finally installs the new client and starts listening (the push
listener start is absorbed into the fresh client being connected). -/
def Connect (env : Env) (b0 : BotState) (hosts : List String) : StepOut :=
  let b := match hosts with
    | [] => b0
    | h :: _ => { b0 with host := h }
  if (b.client.map (fun c => c.connected)).getD false then
    { state := b, trace := [], res := .fatal "Bot already connected" }
  else
    match env.newPClient b.host env.tls with
    | .error e => { state := b, trace := [Event.newClient b.host], res := .err e }
    | .ok cid =>
      { state := { b with client := some { id := cid, connected := true } },
        trace := [Event.newClient b.host], res := .ok }

/-- Embeds `SequentialBot.Reconnect`: `b.Disconnect()` then `b.Connect()` with no
explicit host; the error returned by `Connect` is discarded (Go ignores
the return value), a `Fatal` still terminates. -/
def Reconnect (env : Env) (b : BotState) : StepOut :=
  let p := Disconnect b
  let out := Connect env p.1 []
  { state := out.state, trace := p.2 ++ out.trace, res := discardErr out.res }

/-- Embeds `SequentialBot.runRequest`: resolve args, send the request, validate
expectations (a failure is wrapped by `NewExpectError` with the raw
response and the operation's expectation), then store response data. -/
def runRequest (env : Env) (b : BotState) (op : Operation) : StepOut :=
  match env.buildArgs op.args b.storage with
  | .error e => { state := b, trace := [], res := .err e }
  | .ok args =>
    match env.sendRequest args op.uri with
    | .error e => { state := b, trace := [Event.requestSent op.uri], res := .err e }
    | .ok (resp, rawResp) =>
      match env.validateExpectations op.expect resp b.storage with
      | some e =>
        { state := b, trace := [Event.requestSent op.uri],
          res := .err (Err.expectErr e rawResp op.expect) }
      | none =>
        match env.storeData op.store b.storage resp with
        | .error e =>
          { state := b, trace := [Event.requestSent op.uri, Event.stored],
            res := .err e }
        | .ok st =>
          { state := { b with storage := st },
            trace := [Event.requestSent op.uri, Event.stored], res := .ok }

/-- Embeds `SequentialBot.runNotify`: resolve args and send the notify;
no validation and no store phase. -/
def runNotify (env : Env) (b : BotState) (op : Operation) : StepOut :=
  match env.buildArgs op.args b.storage with
  | .error e => { state := b, trace := [], res := .err e }
  | .ok args =>
    match env.sendNotify args op.uri with
    | some e => { state := b, trace := [Event.notifySent op.uri], res := .err e }
    | none => { state := b, trace := [Event.notifySent op.uri], res := .ok }

/-- Embeds `SequentialBot.runFunction`: switch on the function name.
`disconnect` disconnects; `connect` resolves the args, takes a `host`
argument only when it is a string (the type assertion `val.(string)`;
otherwise the previously configured host is kept), then calls
`b.Connect(host)` discarding its error; `reconnect` reconnects;
any other name returns `Unknown function`. -/
def runFunction (env : Env) (b : BotState) (op : Operation) : StepOut :=
  if op.uri == "disconnect" then
    let p := Disconnect b
    { state := p.1, trace := p.2, res := .ok }
  else if op.uri == "connect" then
    match env.buildArgs op.args b.storage with
    | .error e => { state := b, trace := [], res := .err e }
    | .ok args =>
      let host := match lookupArg args "host" with
        | some (Value.str h) => h
        | _ => b.host
      let out := Connect env b [host]
      { state := out.state, trace := out.trace, res := discardErr out.res }
  else if op.uri == "reconnect" then
    Reconnect env b
  else
    { state := b, trace := [], res := .err (Err.msg ("Unknown function: " ++ op.uri)) }

/-- Embeds `SequentialBot.listenToPush`: wait for a push on the route (bounded by
the operation's timeout), then validate expectations (note: a validation
failure is returned as-is, not wrapped by `NewExpectError`) and store
response data. -/
def listenToPush (env : Env) (b : BotState) (op : Operation) : StepOut :=
  match env.receivePush op.uri op.timeout with
  | .error e => { state := b, trace := [Event.pushReceived op.uri], res := .err e }
  | .ok resp =>
    match env.validateExpectations op.expect resp b.storage with
    | some e => { state := b, trace := [Event.pushReceived op.uri], res := .err e }
    | none =>
      match env.storeData op.store b.storage resp with
      | .error e =>
        { state := b, trace := [Event.pushReceived op.uri, Event.stored],
          res := .err e }
      | .ok st =>
        { state := { b with storage := st },
          trace := [Event.pushReceived op.uri, Event.stored], res := .ok }

/-- Embeds `SequentialBot.runOperation`: dispatch on `op.Type`; an unknown kind
returns `Unknown type`. -/
def runOperation (env : Env) (b : BotState) (op : Operation) : StepOut :=
  if op.opType == "request" then runRequest env b op
  else if op.opType == "notify" then runNotify env b op
  else if op.opType == "function" then runFunction env b op
  else if op.opType == "listen" then listenToPush env b op
  else { state := b, trace := [], res := .err (Err.msg ("Unknown type: " ++ op.opType)) }

/-- The loop body of `SequentialBot.Run`: run the operations in order,
stopping at the first non-ok outcome. -/
def runSteps (env : Env) : BotState → List Operation → StepOut
  | b, [] => { state := b, trace := [], res := .ok }
  | b, op :: rest =>
    let out := runOperation env b op
    match out.res with
    | .ok =>
      let out2 := runSteps env out.state rest
      { state := out2.state, trace := out.trace ++ out2.trace, res := out2.res }
    | .err e => { state := out.state, trace := out.trace, res := .err e }
    | .fatal s => { state := out.state, trace := out.trace, res := .fatal s }

/-- Embeds `SequentialBot.Run`: `defer b.Disconnect()`, then the step loop over
`b.spec.SequentialOperations` (passed here as `ops`).  The deferred
disconnect runs on the normal return paths (success and returned error)
but not on a `logger.Fatal` path, since `os.Exit` skips deferred calls. -/
def Run (env : Env) (b : BotState) (ops : List Operation) : StepOut :=
  let out := runSteps env b ops
  match out.res with
  | .fatal s => { state := out.state, trace := out.trace, res := .fatal s }
  | r =>
    let p := Disconnect out.state
    { state := p.1, trace := out.trace ++ p.2, res := r }

/-! ## Concrete fixtures for witnesses and counterexamples -/

/-- A concrete environment: requests to route `bad` fail in transport,
expectation `[("fail", 0)]` always mismatches, client creation against
host `down` fails, everything else succeeds. -/
def envA : Env where
  tls := false
  buildArgs := fun ra _ => .ok ra
  sendRequest := fun _ route =>
    if route == "bad" then .error (Err.msg "boom") else .ok (Value.num 1, "RAW")
  sendNotify := fun _ _ => none
  validateExpectations := fun ex _ _ =>
    if ex == [("fail", Value.num 0)] then some (Err.msg "mismatch") else none
  storeData := fun _ s _ => .ok (("k", Value.num 7) :: s)
  newPClient := fun h _ => if h == "down" then .error (Err.msg "dial") else .ok 42
  receivePush := fun route _ =>
    if route == "silent" then .error (Err.msg "push timeout") else .ok (Value.num 1)

/-- A bot holding a live (connected) client. -/
def bConn : BotState := { client := some { id := 0, connected := true }, storage := [], host := "h0" }

/-- A bot with no client yet, configured against a reachable host. -/
def bNone : BotState := { client := none, storage := [], host := "h0" }

/-- A bot with no client, configured against the unreachable host `down`. -/
def bDown : BotState := { client := none, storage := [], host := "down" }

/-- A notify step that succeeds under `envA`. -/
def okNotifyOp : Operation :=
  { opType := "notify", uri := "r1", args := [], expect := [], store := [], timeout := 0 }

/-- A request step whose transport fails under `envA`. -/
def badReqOp : Operation :=
  { opType := "request", uri := "bad", args := [], expect := [], store := [], timeout := 0 }

/-- A request step whose expectation mismatches under `envA`. -/
def misReqOp : Operation :=
  { opType := "request", uri := "r2", args := [], expect := [("fail", Value.num 0)],
    store := [], timeout := 0 }

/-- A listen step whose expectation mismatches under `envA`. -/
def misListenOp : Operation :=
  { opType := "listen", uri := "p1", args := [], expect := [("fail", Value.num 0)],
    store := [], timeout := 5 }

/-- A `connect` function step with no `host` argument. -/
def connectOp : Operation :=
  { opType := "function", uri := "connect", args := [], expect := [], store := [], timeout := 0 }

/-- A `connect` function step whose `host` argument is not a string. -/
def connectNumHostOp : Operation :=
  { opType := "function", uri := "connect", args := [("host", Value.num 2)],
    expect := [], store := [], timeout := 0 }

/-- An operation of unknown kind. -/
def weirdOp : Operation :=
  { opType := "jump", uri := "r9", args := [], expect := [], store := [], timeout := 0 }

/-- A function step of unknown name. -/
def weirdFnOp : Operation :=
  { opType := "function", uri := "fly", args := [], expect := [], store := [], timeout := 0 }

/-! ## Helper lemmas -/

/-- Running an appended scenario: when the first part succeeds, the run
continues from its final state and the traces concatenate. -/
theorem runSteps_append_ok (env : Env) (pre rest : List Operation) :
    ∀ b b1 t1, runSteps env b pre = ⟨b1, t1, .ok⟩ →
      runSteps env b (pre ++ rest) =
        { state := (runSteps env b1 rest).state,
          trace := t1 ++ (runSteps env b1 rest).trace,
          res := (runSteps env b1 rest).res } := by
  induction pre with
  | nil =>
    intro b b1 t1 h
    simp only [runSteps, StepOut.mk.injEq] at h
    obtain ⟨rfl, rfl, -⟩ := h
    simp
  | cons op ops ih =>
    intro b b1 t1 h
    simp only [List.cons_append, runSteps] at h ⊢
    cases hro : (runOperation env b op).res with
    | ok =>
      simp only [hro] at h ⊢
      cases hrs : runSteps env (runOperation env b op).state ops with
      | mk s2 t2 r2 =>
        rw [hrs] at h
        simp only [StepOut.mk.injEq] at h
        obtain ⟨rfl, rfl, hr2⟩ := h
        simp only [List.append_eq]
        rw [ih (runOperation env b op).state s2 t2 (by rw [hrs, hr2])]
        simp [List.append_assoc]
    | err e => simp [hro] at h
    | fatal s => simp [hro] at h

/-! ## Claims -/

/-- C1: in an N-step scenario whose prefix `pre` succeeds and whose next
step `opk` returns an error, `Run` returns that error immediately: the
steps in `post` contribute nothing (no events, no state change), and
exactly one disconnection event follows step `opk`'s own trace.  On the
successful exit path (`Run` over the succeeding prefix alone), the
disconnect is likewise invoked exactly once, at the end. -/
theorem run_fail_fast_single_disconnect (env : Env) (b b1 : BotState)
    (pre post : List Operation) (opk : Operation) (t1 : List Event) (e : Err)
    (hpre : runSteps env b pre = ⟨b1, t1, .ok⟩)
    (hk : (runOperation env b1 opk).res = .err e) :
    Run env b (pre ++ opk :: post) =
      { state := (Disconnect (runOperation env b1 opk).state).1,
        trace := t1 ++ (runOperation env b1 opk).trace ++ [Event.clientDisconnect],
        res := .err e } ∧
    Run env b pre =
      { state := (Disconnect b1).1, trace := t1 ++ [Event.clientDisconnect],
        res := .ok } := by
  have h2 : runSteps env b (pre ++ opk :: post) =
      { state := (runOperation env b1 opk).state,
        trace := t1 ++ (runOperation env b1 opk).trace, res := .err e } := by
    rw [runSteps_append_ok env pre (opk :: post) b b1 t1 hpre]
    simp only [runSteps, hk]
  constructor
  · simp only [Run, h2, Disconnect, List.append_assoc]
  · simp only [Run, hpre, Disconnect]

/-- C1 witness: a two-step prefix-free scenario under `envA` from a
connected bot — the notify succeeds, the request to `bad` fails, the
trailing notify never runs, and one disconnect ends both traces. -/
theorem run_fail_fast_single_disconnect_witness :
    Run envA bConn ([okNotifyOp] ++ badReqOp :: [okNotifyOp]) =
      { state := (Disconnect (runOperation envA bConn badReqOp).state).1,
        trace := [Event.notifySent "r1"] ++ (runOperation envA bConn badReqOp).trace
                   ++ [Event.clientDisconnect],
        res := .err (Err.msg "boom") } ∧
    Run envA bConn [okNotifyOp] =
      { state := (Disconnect bConn).1,
        trace := [Event.notifySent "r1"] ++ [Event.clientDisconnect],
        res := .ok } :=
  run_fail_fast_single_disconnect envA bConn bConn [okNotifyOp] [okNotifyOp]
    badReqOp [Event.notifySent "r1"] (Err.msg "boom") (by decide) (by decide)

/-- C2 (code evaluated at the failing input): against host `down`,
client creation fails with error `dial` and `Connect` returns that error,
yet `runFunction` on the `connect` function operation reports success —
`b.Connect(host)`'s returned error is discarded by `runFunction`. -/
theorem connect_error_swallowed_by_runFunction :
    envA.newPClient bDown.host envA.tls = .error (Err.msg "dial") ∧
    (Connect envA bDown [bDown.host]).res = .err (Err.msg "dial") ∧
    (runFunction envA bDown connectOp).res = RunResult.ok := by
  refine ⟨rfl, ?_, ?_⟩ <;> decide

/-- C3 counterexample: under `envA`, the same expectation mismatch yields
a bare error on a `listen` step but a `NewExpectError`-wrapped error
(raw response and failed expectation attached) on a `request` step, so a
listen-step mismatch does not produce the same error form as a
request-step mismatch. -/
theorem listen_mismatch_error_form_differs :
    (listenToPush envA bConn misListenOp).res = .err (Err.msg "mismatch") ∧
    (runRequest envA bConn misReqOp).res =
      .err (Err.expectErr (Err.msg "mismatch") "RAW" [("fail", Value.num 0)]) ∧
    (listenToPush envA bConn misListenOp).res ≠ (runRequest envA bConn misReqOp).res := by
  refine ⟨?_, ?_, ?_⟩ <;> decide

/-- C3 amended: after a push is received, a `listen` step validates and
then stores exactly in the order a `request` step does, but an
expectation mismatch is returned as the raw validation error, without
the `NewExpectError` wrapper carrying the raw response and the failed
expectation. -/
theorem listen_validates_then_stores_raw_error (env : Env) (b : BotState)
    (op : Operation) (resp : Value) (e : Err)
    (hp : env.receivePush op.uri op.timeout = .ok resp) :
    (env.validateExpectations op.expect resp b.storage = some e →
      listenToPush env b op =
        { state := b, trace := [Event.pushReceived op.uri], res := .err e }) ∧
    (env.validateExpectations op.expect resp b.storage = none →
      listenToPush env b op =
        match env.storeData op.store b.storage resp with
        | .error e2 =>
          { state := b, trace := [Event.pushReceived op.uri, Event.stored],
            res := .err e2 }
        | .ok st =>
          { state := { b with storage := st },
            trace := [Event.pushReceived op.uri, Event.stored], res := .ok }) := by
  constructor <;> intro hv <;> simp [listenToPush, hp, hv]

/-- C3 witness: the mismatching listen step under `envA` returns the bare
validation error with the push received and nothing stored. -/
theorem listen_validates_then_stores_raw_error_witness :
    listenToPush envA bConn misListenOp =
      { state := bConn, trace := [Event.pushReceived "p1"],
        res := .err (Err.msg "mismatch") } :=
  (listen_validates_then_stores_raw_error envA bConn misListenOp (Value.num 1)
    (Err.msg "mismatch") rfl).1 rfl

/-- C4: calling `Connect` while the current client is connected fails
fatally and leaves the client field untouched (only the host may have
been overwritten by an explicit argument): no new client is ever
assigned over the live one. -/
theorem connect_while_connected_fatal (env : Env) (b : BotState) (c : PClient)
    (hosts : List String) (hc : b.client = some c) (hconn : c.connected = true) :
    Connect env b hosts =
      { state := { b with host := match hosts with | [] => b.host | h :: _ => h },
        trace := [], res := .fatal "Bot already connected" } := by
  obtain ⟨cl, st, ho⟩ := b
  obtain rfl : cl = some c := hc
  cases hosts <;> simp [Connect, hconn]

/-- C4 witness: connecting the already-connected bot `bConn` to `h9` is
fatal and keeps its live client. -/
theorem connect_while_connected_fatal_witness :
    Connect envA bConn ["h9"] =
      { state := { bConn with host := "h9" }, trace := [],
        res := .fatal "Bot already connected" } :=
  connect_while_connected_fatal envA bConn { id := 0, connected := true } ["h9"]
    rfl rfl

/-- C5: an operation of unknown kind fails with the unknown-type error,
and a function operation of unknown name fails with the unknown-function
error; in both cases the state is unchanged and the trace is empty, so
no network call is made for that step. -/
theorem unknown_kind_and_function_fail_early (env : Env) (b : BotState)
    (op : Operation) :
    (op.opType ∉ ["request", "notify", "function", "listen"] →
      runOperation env b op =
        { state := b, trace := [],
          res := .err (Err.msg ("Unknown type: " ++ op.opType)) }) ∧
    (op.opType = "function" → op.uri ∉ ["connect", "disconnect", "reconnect"] →
      runOperation env b op =
        { state := b, trace := [],
          res := .err (Err.msg ("Unknown function: " ++ op.uri)) }) := by
  constructor
  · intro h
    simp only [List.mem_cons, List.not_mem_nil, or_false, not_or] at h
    obtain ⟨h1, h2, h3, h4⟩ := h
    simp [runOperation, h1, h2, h3, h4]
  · intro hty h
    simp only [List.mem_cons, List.not_mem_nil, or_false, not_or] at h
    obtain ⟨h1, h2, h3⟩ := h
    simp [runOperation, runFunction, hty, h1, h2, h3]

/-- C5 witness: the unknown kind `jump` and the unknown function `fly`
both fail with an empty trace from the connected bot. -/
theorem unknown_kind_and_function_fail_early_witness :
    runOperation envA bConn weirdOp =
      { state := bConn, trace := [],
        res := .err (Err.msg ("Unknown type: " ++ weirdOp.opType)) } ∧
    runOperation envA bConn weirdFnOp =
      { state := bConn, trace := [],
        res := .err (Err.msg ("Unknown function: " ++ weirdFnOp.uri)) } :=
  ⟨(unknown_kind_and_function_fail_early envA bConn weirdOp).1 (by decide),
   (unknown_kind_and_function_fail_early envA bConn weirdFnOp).2 rfl (by decide)⟩

/-- C6: when expectation validation fails on a request step, `runRequest`
returns the `NewExpectError`-wrapped error carrying the raw response and
the operation's expectation; the state (hence Storage) is unchanged and
no store event occurs: validation precedes storing and the store phase
never runs. -/
theorem request_mismatch_wraps_and_skips_store (env : Env) (b : BotState)
    (op : Operation) (args : Args) (resp : Value) (rawResp : String) (e : Err)
    (ha : env.buildArgs op.args b.storage = .ok args)
    (hs : env.sendRequest args op.uri = .ok (resp, rawResp))
    (hv : env.validateExpectations op.expect resp b.storage = some e) :
    runRequest env b op =
      { state := b, trace := [Event.requestSent op.uri],
        res := .err (Err.expectErr e rawResp op.expect) } := by
  simp [runRequest, ha, hs, hv]

/-- C6 witness: the mismatching request step under `envA` from the
connected bot. -/
theorem request_mismatch_wraps_and_skips_store_witness :
    runRequest envA bConn misReqOp =
      { state := bConn, trace := [Event.requestSent "r2"],
        res := .err (Err.expectErr (Err.msg "mismatch") "RAW" [("fail", Value.num 0)]) } :=
  request_mismatch_wraps_and_skips_store envA bConn misReqOp [] (Value.num 1)
    "RAW" (Err.msg "mismatch") rfl rfl rfl

/-- C7: a notify step leaves the whole bot state (in particular Storage)
unchanged on every path, emits no store event, and its behaviour is
independent of the operation's `expect` and `store` fields: no
validation and no store phase run. -/
theorem notify_no_validation_no_store (env : Env) (b : BotState) (op : Operation)
    (e2 : Expect) (s2 : StoreSpec) :
    (runNotify env b op).state = b ∧
    Event.stored ∉ (runNotify env b op).trace ∧
    runNotify env b { op with expect := e2, store := s2 } = runNotify env b op := by
  cases h : env.buildArgs op.args b.storage with
  | error e => simp [runNotify, h]
  | ok args => cases h2 : env.sendNotify args op.uri <;> simp [runNotify, h, h2]

/-- The connection lifecycle never touches Storage: `Connect` preserves
the storage field on every path. -/
theorem Connect_state_storage (env : Env) (b : BotState) (hosts : List String) :
    (Connect env b hosts).state.storage = b.storage := by
  rcases hosts with - | ⟨h, hs⟩ <;>
    · unfold Connect
      dsimp only
      split
      · rfl
      · split <;> rfl

/-- Lemma: `Reconnect` always disconnects first and then attempts a connection
to the currently configured host, whatever the client state and the
outcome of client creation. -/
theorem Reconnect_trace (env : Env) (b : BotState) :
    (Reconnect env b).trace = [Event.clientDisconnect, Event.newClient b.host] := by
  cases hcl : b.client <;> cases hnp : env.newPClient b.host env.tls <;>
    simp [Reconnect, Disconnect, Connect, hcl, hnp]

/-- C8: `Reconnect` is a disconnect followed by a connect to the most
recently configured host (its trace shows the order and the host), and
none of `Connect`, `Disconnect`, `Reconnect` reads or writes Storage:
the storage field is untouched by all of them (their behaviour cannot
read it either: the `Env` operations they invoke are not given the
storage). -/
theorem reconnect_order_and_lifecycle_storage_frame (env : Env) (b : BotState)
    (hosts : List String) :
    (Reconnect env b).trace = [Event.clientDisconnect, Event.newClient b.host] ∧
    (Reconnect env b).state.storage = b.storage ∧
    (Connect env b hosts).state.storage = b.storage ∧
    (Disconnect b).1.storage = b.storage ∧
    (Disconnect b).1.host = b.host := by
  refine ⟨Reconnect_trace env b, ?_, Connect_state_storage env b hosts, ?_, ?_⟩
  · show (Connect env (Disconnect b).1 []).state.storage = b.storage
    rw [Connect_state_storage]
    simp [Disconnect]
  · simp [Disconnect]
  · simp [Disconnect]

/-- C9: in a `connect` function operation whose resolved `host` argument
is present but not a string, the ill-typed argument is silently ignored:
the handler behaves exactly as a plain connect to the previously
configured host `b.host`, and no error is reported for the argument. -/
theorem connect_ill_typed_host_ignored (env : Env) (b : BotState) (op : Operation)
    (args : Args) (v : Value)
    (hu : op.uri = "connect")
    (ha : env.buildArgs op.args b.storage = .ok args)
    (hl : lookupArg args "host" = some v)
    (hv : v.isStr = false) :
    runFunction env b op =
      { state := (Connect env b [b.host]).state,
        trace := (Connect env b [b.host]).trace,
        res := discardErr (Connect env b [b.host]).res } := by
  cases v with
  | str s => simp [Value.isStr] at hv
  | num n => simp [runFunction, hu, ha, hl]
  | boolean c => simp [runFunction, hu, ha, hl]

/-- C9 witness: a `connect` function step with `host := 2` (a number) on
the unconnected bot behaves as a connect to its configured host `h0`. -/
theorem connect_ill_typed_host_ignored_witness :
    runFunction envA bNone connectNumHostOp =
      { state := (Connect envA bNone [bNone.host]).state,
        trace := (Connect envA bNone [bNone.host]).trace,
        res := discardErr (Connect envA bNone [bNone.host]).res } :=
  connect_ill_typed_host_ignored envA bNone connectNumHostOp
    [("host", Value.num 2)] (Value.num 2) rfl rfl (by decide) (by decide)

/-- C10: `Connect` with an explicit host stores that host before the
already-connected check and before client creation: the resulting state
carries the new host on every outcome; when client creation fails the
whole failing result still carries the new host and an unchanged client;
and a subsequent `Connect` without an explicit host, or a `Reconnect`,
attempts the stored host. -/
theorem connect_explicit_host_persists (env : Env) (b : BotState) (h : String)
    (hs : List String) (e : Err)
    (hnc : (b.client.map (fun c => c.connected)).getD false = false)
    (hnp : env.newPClient h env.tls = .error e) :
    (Connect env b (h :: hs)).state.host = h ∧
    Connect env b (h :: hs) =
      { state := { b with host := h }, trace := [Event.newClient h], res := .err e } ∧
    (Connect env (Connect env b (h :: hs)).state []).trace = [Event.newClient h] ∧
    (Reconnect env (Connect env b (h :: hs)).state).trace =
      [Event.clientDisconnect, Event.newClient h] := by
  have heq : Connect env b (h :: hs) =
      { state := { b with host := h }, trace := [Event.newClient h], res := .err e } := by
    simp [Connect, hnc, hnp]
  refine ⟨by rw [heq], heq, ?_, ?_⟩
  · rw [heq]
    cases hnp2 : env.newPClient h env.tls <;> simp [Connect, hnc, hnp2]
  · rw [heq, Reconnect_trace]

/-- C10 witness: connecting the fresh bot to the unreachable host `down`
fails but persists `down`, and the follow-up connect and reconnect both
target `down`. -/
theorem connect_explicit_host_persists_witness :
    (Connect envA bNone ["down"]).state.host = "down" ∧
    Connect envA bNone ["down"] =
      { state := { bNone with host := "down" }, trace := [Event.newClient "down"],
        res := .err (Err.msg "dial") } ∧
    (Connect envA (Connect envA bNone ["down"]).state []).trace =
      [Event.newClient "down"] ∧
    (Reconnect envA (Connect envA bNone ["down"]).state).trace =
      [Event.clientDisconnect, Event.newClient "down"] :=
  connect_explicit_host_persists envA bNone "down" [] (Err.msg "dial")
    (by decide) rfl

end PitayaBot
